import Mathlib

/-!
Verification of the ML-ANS-EC2-Node-Selector repository.

The development shallowly embeds the feature-engineering layer
(src/ml/predict.py) and the resource-profile simulation engine
(src/resources/generate_enhanced_dataset.py) into Lean 4.

Modelling conventions:
- Python floats are embedded as rationals (ℚ); Python ints as ℤ.
- A Python dict-shaped build context with optional keys is a structure of
  Option fields, one per key variant that the source reads (camelCase and
  snake_case variants are separate fields, mirroring the dual dict lookups).
- Python bool values flowing into int() coerce to 0/1 at the model boundary
  (int(True) = 1 in Python), so flag fields are Option ℤ.
- random.uniform(a, b) is modelled as a + (b - a) * u where u is the next
  element popped from an explicit stream of draws (u ∈ [0, 1] for a real RNG);
  random.random() is the popped u itself; random.choice(l) indexes l by
  ⌊u * len(l)⌋. Popping an empty stream yields 0.
- Python round(x, k) is modelled as round(x * 10^k) / 10^k with the Mathlib
  round function. Python uses round-half-to-even on floats; the two agree
  except at exact ties, and no statement below depends on tie behaviour.
- datetime.now().hour is an explicit parameter now_hour.
-/

namespace NodeSel

/-! ## Generic helpers: strings, rounding, the random stream -/

/-- Case mapping for one character, as Python str.lower does for ASCII. -/
def lowChar (c : Char) : Char := c.toLower

/-- Model of the Python str.lower() method. -/
def lowerStr (s : String) : String := String.mk (s.data.map lowChar)

/-- Does the first list start with the second list? -/
def startsList : List Char → List Char → Bool
  | _, [] => true
  | [], _ :: _ => false
  | a :: as, b :: bs => a == b && startsList as bs

/-- Model of the Python substring test `needle in hay` (on the raw lists). -/
def subList (needle : List Char) : List Char → Bool
  | [] => needle.isEmpty
  | a :: as => startsList (a :: as) needle || subList needle as

/-- Model of the Python substring test `needle in hay` for strings. -/
def strContains (hay needle : String) : Bool := subList needle.data hay.data

/-- Model of Python round(x, k): round to k decimal digits. -/
def roundTo (k : ℕ) (x : ℚ) : ℚ := ((round (x * 10 ^ k) : ℤ) : ℚ) / 10 ^ k

/-- Pop the next draw from the random stream (0 when the stream is empty). -/
def nextRand : List ℚ → ℚ × List ℚ
  | [] => (0, [])
  | u :: r => (u, r)

/-- Model of random.uniform(a, b): the draw u ∈ [0, 1] picks a point. -/
def unif (a b u : ℚ) : ℚ := a + (b - a) * u

/-- Model of random.choice(l): the draw u ∈ [0, 1] picks an index. -/
def rchoice (l : List ℤ) (u : ℚ) : ℤ := l.getD (Int.toNat ⌊u * (l.length : ℚ)⌋) 0

/-- All entries of a random stream are genuine unit-interval draws. -/
def GoodStream (rng : List ℚ) : Prop := ∀ u ∈ rng, 0 ≤ u ∧ u ≤ 1

/-! ## src/ml/predict.py : feature definitions -/

/-- FEATURE_COLUMNS from src/ml/predict.py (27 names, fixed order). -/
def FEATURE_COLUMNS : List String := [
  "project_type",
  "repo_size_mb",
  "is_monorepo",
  "branch_type",
  "build_type",
  "environment",
  "files_changed",
  "lines_added",
  "lines_deleted",
  "source_files_pct",
  "deps_file_changed",
  "dependency_count",
  "test_files_changed",
  "stages_count",
  "has_build_stage",
  "has_unit_tests",
  "has_integration_tests",
  "has_e2e_tests",
  "has_deploy_stage",
  "has_docker_build",
  "uses_emulator",
  "parallel_stages",
  "has_artifact_publish",
  "is_first_build",
  "cache_available",
  "is_clean_build",
  "time_of_day_hour"]

/-- PROJECT_TYPES alias table from src/ml/predict.py. -/
def PROJECT_TYPES : List (String × ℤ) := [
  ("python", 0),
  ("java", 1),
  ("nodejs", 2),
  ("node", 2),
  ("react-native", 3),
  ("reactnative", 3),
  ("android", 4),
  ("ios", 5),
  ("unknown", 0)]

/-- BRANCH_TYPES table from src/ml/predict.py. -/
def BRANCH_TYPES : List (String × ℤ) := [
  ("feature", 0),
  ("develop", 1),
  ("development", 1),
  ("main", 2),
  ("master", 2),
  ("hotfix", 3),
  ("release", 4)]

/-- Model of PROJECT_TYPES.get(s.lower(), 0). -/
def lookupProjectType (s : String) : ℤ := ((PROJECT_TYPES.lookup (lowerStr s)).getD 0)

/-- Value found under the branchType / branch_type context keys: the upstream
analyzer sends either an int code or a string name. -/
inductive BTV where
  | int (n : ℤ)
  | str (s : String)
deriving DecidableEq

/-- Build context record: one Option field per dict key read by
engineer_features in src/ml/predict.py, absent key = none. -/
structure BuildContext where
  projectType : Option String := none
  project_type : Option String := none
  repoSizeMb : Option ℚ := none
  repo_size_mb : Option ℚ := none
  isMonorepo : Option ℤ := none
  is_monorepo : Option ℤ := none
  branch : Option String := none
  branchType : Option BTV := none
  branch_type : Option BTV := none
  buildType : Option String := none
  environment : Option String := none
  filesChanged : Option ℤ := none
  files_changed : Option ℤ := none
  linesAdded : Option ℤ := none
  lines_added : Option ℤ := none
  linesDeleted : Option ℤ := none
  lines_deleted : Option ℤ := none
  sourceFilesPct : Option ℚ := none
  source_files_pct : Option ℚ := none
  depsChanged : Option ℤ := none
  deps_file_changed : Option ℤ := none
  dependencyCount : Option ℤ := none
  dependency_count : Option ℤ := none
  testFilesChanged : Option ℤ := none
  test_files_changed : Option ℤ := none
  stagesCount : Option ℤ := none
  stages_count : Option ℤ := none
  hasBuildStage : Option ℤ := none
  has_build_stage : Option ℤ := none
  hasUnitTests : Option ℤ := none
  has_unit_tests : Option ℤ := none
  hasIntegrationTests : Option ℤ := none
  has_integration_tests : Option ℤ := none
  hasE2ETests : Option ℤ := none
  has_e2e_tests : Option ℤ := none
  hasDeployStage : Option ℤ := none
  has_deploy_stage : Option ℤ := none
  hasDockerBuild : Option ℤ := none
  has_docker_build : Option ℤ := none
  usesEmulator : Option ℤ := none
  uses_emulator : Option ℤ := none
  parallelStages : Option ℤ := none
  parallel_stages : Option ℤ := none
  hasArtifactPublish : Option ℤ := none
  has_artifact_publish : Option ℤ := none
  isFirstBuild : Option ℤ := none
  is_first_build : Option ℤ := none
  cacheAvailable : Option ℤ := none
  cache_available : Option ℤ := none
  isCleanBuild : Option ℤ := none
  is_clean_build : Option ℤ := none
  timeOfDayHour : Option ℤ := none
  time_of_day_hour : Option ℤ := none

/-- Branch-type inference from the raw branch name (the else-branch of the
branch_type block in engineer_features, src/ml/predict.py lines 123-135). -/
def inferBranchType (branch : String) : ℤ :=
  if strContains (lowerStr branch) "feature" then 0
  else if lowerStr branch = "develop" ∨ lowerStr branch = "development" then 1
  else if lowerStr branch = "main" ∨ lowerStr branch = "master" then 2
  else if strContains (lowerStr branch) "hotfix" then 3
  else if strContains (lowerStr branch) "release" then 4
  else 0

/-- Branch-type resolution (src/ml/predict.py lines 115-135).  The source
tests isinstance(int) first, then `branch_type_val and isinstance(str)` —
note the truthiness test, which sends an empty string to the else branch. -/
def encode_branch_type (branch_type_val : Option BTV) (branch : String) : ℤ :=
  match branch_type_val with
  | some (BTV.int n) => n
  | some (BTV.str s) =>
    if s ≠ "" then (BRANCH_TYPES.lookup (lowerStr s)).getD 0
    else inferBranchType branch
  | none => inferBranchType branch

/-- engineer_features from src/ml/predict.py: transform a raw build context
into the 27 named features, in dict insertion order.  now_hour models
datetime.now().hour (used only when neither time key is present). -/
def engineer_features (context : BuildContext) (now_hour : ℤ) : List (String × ℚ) :=
  let project_type_str := (context.projectType <|> context.project_type).getD "unknown"
  let branch := (context.branch).getD "develop"
  let branch_type_val := context.branchType <|> context.branch_type
  let build_type := (context.buildType).getD "debug"
  let env := (context.environment).getD "development"
  let hour := (context.timeOfDayHour <|> context.time_of_day_hour).getD now_hour
  [("project_type", ((lookupProjectType project_type_str : ℤ) : ℚ)),
   ("repo_size_mb", (context.repoSizeMb <|> context.repo_size_mb).getD 100),
   ("is_monorepo", (((context.isMonorepo <|> context.is_monorepo).getD 0 : ℤ) : ℚ)),
   ("branch_type", ((encode_branch_type branch_type_val branch : ℤ) : ℚ)),
   ("build_type", if lowerStr build_type = "release" ∨ lowerStr build_type = "prodrelease" then 1 else 0),
   ("environment", if lowerStr env = "dev" ∨ lowerStr env = "development" then 0
     else if lowerStr env = "staging" then 1 else 2),
   ("files_changed", (((context.filesChanged <|> context.files_changed).getD 5 : ℤ) : ℚ)),
   ("lines_added", (((context.linesAdded <|> context.lines_added).getD 100 : ℤ) : ℚ)),
   ("lines_deleted", (((context.linesDeleted <|> context.lines_deleted).getD 20 : ℤ) : ℚ)),
   ("source_files_pct", (context.sourceFilesPct <|> context.source_files_pct).getD 0.8),
   ("deps_file_changed", (((context.depsChanged <|> context.deps_file_changed).getD 0 : ℤ) : ℚ)),
   ("dependency_count", (((context.dependencyCount <|> context.dependency_count).getD 50 : ℤ) : ℚ)),
   ("test_files_changed", (((context.testFilesChanged <|> context.test_files_changed).getD 0 : ℤ) : ℚ)),
   ("stages_count", (((context.stagesCount <|> context.stages_count).getD 3 : ℤ) : ℚ)),
   ("has_build_stage", (((context.hasBuildStage <|> context.has_build_stage).getD 1 : ℤ) : ℚ)),
   ("has_unit_tests", (((context.hasUnitTests <|> context.has_unit_tests).getD 1 : ℤ) : ℚ)),
   ("has_integration_tests", (((context.hasIntegrationTests <|> context.has_integration_tests).getD 0 : ℤ) : ℚ)),
   ("has_e2e_tests", (((context.hasE2ETests <|> context.has_e2e_tests).getD 0 : ℤ) : ℚ)),
   ("has_deploy_stage", (((context.hasDeployStage <|> context.has_deploy_stage).getD 0 : ℤ) : ℚ)),
   ("has_docker_build", (((context.hasDockerBuild <|> context.has_docker_build).getD 0 : ℤ) : ℚ)),
   ("uses_emulator", (((context.usesEmulator <|> context.uses_emulator).getD 0 : ℤ) : ℚ)),
   ("parallel_stages", (((context.parallelStages <|> context.parallel_stages).getD 0 : ℤ) : ℚ)),
   ("has_artifact_publish", (((context.hasArtifactPublish <|> context.has_artifact_publish).getD 0 : ℤ) : ℚ)),
   ("is_first_build", (((context.isFirstBuild <|> context.is_first_build).getD 0 : ℤ) : ℚ)),
   ("cache_available", (((context.cacheAvailable <|> context.cache_available).getD 1 : ℤ) : ℚ)),
   ("is_clean_build", (((context.isCleanBuild <|> context.is_clean_build).getD 0 : ℤ) : ℚ)),
   ("time_of_day_hour", ((hour : ℤ) : ℚ))]

/-! ## src/ml/predict.py : prediction and confidence -/

/-- Result record of predict_resources (cpu, memoryGb, timeMinutes). -/
structure Prediction where
  cpu : ℚ
  memoryGb : ℚ
  timeMinutes : ℚ
deriving DecidableEq

/-- The 27-wide input row `[features.get(col, 0) for col in FEATURE_COLUMNS]`
(src/ml/predict.py line 198). -/
def buildVector (features : String → Option ℚ) : List ℚ :=
  FEATURE_COLUMNS.map (fun col => (features col).getD 0)

/-- predict_resources from src/ml/predict.py (lines 188-214), with the
external regression model as an explicit function argument; the artifact
loading is I/O and outside the embedding. -/
def predict_resources (features : String → Option ℚ) (model : List ℚ → ℚ × ℚ × ℚ) : Prediction :=
  let X := buildVector features
  let prediction := model X
  let cpu_pct := max 10 (min 100 prediction.1)
  let memory_gb := max 0.5 prediction.2.1
  let time_min := max 1 prediction.2.2
  { cpu := roundTo 1 cpu_pct
    memoryGb := roundTo 2 memory_gb
    timeMinutes := roundTo 1 time_min }

/-- The critical_features list of get_confidence (src/ml/predict.py). -/
def critical_features : List (String × ℚ) := [
  ("project_type", 0),
  ("has_e2e_tests", 0),
  ("uses_emulator", 0),
  ("stages_count", 3),
  ("is_first_build", 0)]

/-- get_confidence from src/ml/predict.py (lines 217-240).  A missing key
counts as differing, as Python None != default is true. -/
def get_confidence (features : String → Option ℚ) : String :=
  let provided_count :=
    critical_features.foldl
      (fun n fd => if features fd.1 ≠ some fd.2 then n + 1 else n) (0 : ℕ)
  if provided_count ≥ 4 then "high"
  else if provided_count ≥ 2 then "medium"
  else "low"

/-- View of an engineered feature list as the map that get_confidence and
predict_resources consume. -/
def featMap (l : List (String × ℚ)) : String → Option ℚ := fun k => l.lookup k

/-! ## src/resources/generate_enhanced_dataset.py : the resource profile table -/

/-- Project types keyed in the RESOURCE_PROFILES table. -/
inductive ProjName where
  | python | java | nodejs | reactNative | android | ios
deriving DecidableEq, Fintype

/-- A closed (min, max) range for one metric. -/
structure Interval where
  lo : ℚ
  hi : ℚ
deriving DecidableEq

/-- One named profile entry: (min, max) for memory, cpu and time. -/
structure StageProfile where
  memory_gb : Interval
  cpu_pct : Interval
  time_min : Interval
deriving DecidableEq

/-- A per-project profile dict: base plus optional named additions.  A key
absent from the Python dict is none. -/
structure Profile where
  base : StageProfile
  unit_tests : Option StageProfile := none
  integration : Option StageProfile := none
  e2e : Option StageProfile := none
  emulator : Option StageProfile := none
  docker : Option StageProfile := none
  deps_no_cache : Option StageProfile := none
  release : Option StageProfile := none
deriving DecidableEq

/-- RESOURCE_PROFILES from src/resources/generate_enhanced_dataset.py. -/
def RESOURCE_PROFILES : ProjName → Profile
  | .python =>
    { base := ⟨⟨0.5, 2⟩, ⟨15, 40⟩, ⟨2, 8⟩⟩
      unit_tests := some ⟨⟨1, 3⟩, ⟨30, 60⟩, ⟨3, 12⟩⟩
      integration := some ⟨⟨2, 5⟩, ⟨40, 75⟩, ⟨8, 25⟩⟩
      deps_no_cache := some ⟨⟨2, 4⟩, ⟨25, 50⟩, ⟨5, 30⟩⟩
      docker := some ⟨⟨3, 6⟩, ⟨50, 80⟩, ⟨10, 30⟩⟩ }
  | .java =>
    { base := ⟨⟨2, 4⟩, ⟨40, 70⟩, ⟨5, 15⟩⟩
      unit_tests := some ⟨⟨3, 6⟩, ⟨50, 80⟩, ⟨10, 25⟩⟩
      integration := some ⟨⟨4, 8⟩, ⟨60, 90⟩, ⟨15, 45⟩⟩
      deps_no_cache := some ⟨⟨3, 5⟩, ⟨45, 65⟩, ⟨8, 25⟩⟩
      docker := some ⟨⟨4, 8⟩, ⟨55, 85⟩, ⟨15, 35⟩⟩ }
  | .nodejs =>
    { base := ⟨⟨1, 3⟩, ⟨20, 50⟩, ⟨1, 5⟩⟩
      unit_tests := some ⟨⟨1.5, 4⟩, ⟨30, 65⟩, ⟨3, 10⟩⟩
      integration := some ⟨⟨2, 5⟩, ⟨40, 75⟩, ⟨5, 20⟩⟩
      deps_no_cache := some ⟨⟨2, 4⟩, ⟨30, 55⟩, ⟨3, 25⟩⟩
      docker := some ⟨⟨2, 5⟩, ⟨45, 75⟩, ⟨5, 20⟩⟩
      e2e := some ⟨⟨4, 8⟩, ⟨60, 85⟩, ⟨15, 40⟩⟩ }
  | .reactNative =>
    { base := ⟨⟨4, 8⟩, ⟨50, 80⟩, ⟨10, 25⟩⟩
      unit_tests := some ⟨⟨5, 10⟩, ⟨55, 85⟩, ⟨15, 35⟩⟩
      integration := some ⟨⟨6, 12⟩, ⟨60, 90⟩, ⟨20, 50⟩⟩
      e2e := some ⟨⟨8, 16⟩, ⟨70, 95⟩, ⟨30, 90⟩⟩
      emulator := some ⟨⟨10, 18⟩, ⟨75, 95⟩, ⟨40, 100⟩⟩
      release := some ⟨⟨8, 14⟩, ⟨65, 90⟩, ⟨25, 50⟩⟩ }
  | .android =>
    { base := ⟨⟨4, 8⟩, ⟨55, 85⟩, ⟨8, 20⟩⟩
      unit_tests := some ⟨⟨5, 10⟩, ⟨60, 88⟩, ⟨12, 30⟩⟩
      integration := some ⟨⟨6, 12⟩, ⟨65, 92⟩, ⟨18, 45⟩⟩
      e2e := some ⟨⟨10, 20⟩, ⟨75, 98⟩, ⟨35, 90⟩⟩
      emulator := some ⟨⟨12, 24⟩, ⟨80, 98⟩, ⟨45, 120⟩⟩
      release := some ⟨⟨8, 16⟩, ⟨70, 95⟩, ⟨20, 40⟩⟩ }
  | .ios =>
    { base := ⟨⟨4, 10⟩, ⟨50, 80⟩, ⟨10, 30⟩⟩
      unit_tests := some ⟨⟨5, 12⟩, ⟨55, 85⟩, ⟨15, 40⟩⟩
      integration := some ⟨⟨6, 14⟩, ⟨60, 90⟩, ⟨20, 55⟩⟩
      e2e := some ⟨⟨8, 18⟩, ⟨70, 95⟩, ⟨30, 80⟩⟩
      release := some ⟨⟨8, 16⟩, ⟨65, 90⟩, ⟨20, 45⟩⟩ }

/-! ## calculate_resources : interval widening -/

/-- The five optional stage additions considered by calculate_resources. -/
inductive AddName where
  | unit_tests | integration | e2e | emulator | docker
deriving DecidableEq, Fintype

/-- The dict lookup profile[name] for an addition name. -/
def profAdd (p : Profile) : AddName → Option StageProfile
  | .unit_tests => p.unit_tests
  | .integration => p.integration
  | .e2e => p.e2e
  | .emulator => p.emulator
  | .docker => p.docker

/-- The boolean pipeline-config inputs read by calculate_resources. -/
structure PipelineConfig where
  has_unit_tests : Bool
  has_integration_tests : Bool
  has_e2e_tests : Bool
  uses_emulator : Bool
  has_docker_build : Bool
deriving DecidableEq, Fintype

/-- The pipeline_additions list built by calculate_resources
(src/resources/generate_enhanced_dataset.py lines 184-195). -/
def pipeline_additions (profile : Profile) (cfg : PipelineConfig) : List AddName :=
  (if cfg.has_unit_tests then [AddName.unit_tests] else []) ++
  (if cfg.has_integration_tests then [AddName.integration] else []) ++
  (if cfg.has_e2e_tests && (profile.e2e).isSome then [AddName.e2e] else []) ++
  (if cfg.uses_emulator && (profile.emulator).isSome then [AddName.emulator] else []) ++
  (if cfg.has_docker_build && (profile.docker).isSome then [AddName.docker] else [])

/-- The running (memory, cpu, time) interval triple. -/
structure Envelope where
  memory : Interval
  cpu : Interval
  time : Interval
deriving DecidableEq

/-- The body of the widening loop of calculate_resources (lines 198-206):
elementwise max for memory and cpu, max for the time lower bound, the time
upper bound grows by half of the addition upper bound; an addition name the
profile does not define is skipped. -/
def wstep (profile : Profile) (acc : Envelope) (addition : AddName) : Envelope :=
  match profAdd profile addition with
  | some ap =>
    { memory := ⟨max acc.memory.lo ap.memory_gb.lo, max acc.memory.hi ap.memory_gb.hi⟩
      cpu := ⟨max acc.cpu.lo ap.cpu_pct.lo, max acc.cpu.hi ap.cpu_pct.hi⟩
      time := ⟨max acc.time.lo ap.time_min.lo, acc.time.hi + ap.time_min.hi * 0.5⟩ }
  | none => acc

/-- The widening loop of calculate_resources (lines 197-206). -/
def widenAll (profile : Profile) (cfg : PipelineConfig) : Envelope :=
  (pipeline_additions profile cfg).foldl (wstep profile)
    ⟨profile.base.memory_gb, profile.base.cpu_pct, profile.base.time_min⟩

/-! ## calculate_resources : sampling and sequential modifiers -/

/-- The mutable scalars memory_val, cpu_val, time_val of calculate_resources. -/
structure SampleVals where
  memory_val : ℚ
  cpu_val : ℚ
  time_val : ℚ
deriving DecidableEq

/-- Returned record of calculate_resources. -/
structure Resources where
  memory_gb : ℚ
  cpu_avg_pct : ℚ
  build_time_min : ℚ
deriving DecidableEq

/-- Lines 208-211: draw the (memory, cpu, time) point estimate uniformly from
the widened envelope.  The three uniform calls consume three stream draws. -/
def baseSample (profile : Profile) (cfg : PipelineConfig) (rng : List ℚ) :
    SampleVals × List ℚ :=
  let env := widenAll profile cfg
  let memory_val := unif env.memory.lo env.memory.hi (nextRand rng).1
  let rng1 := (nextRand rng).2
  let cpu_val := unif env.cpu.lo env.cpu.hi (nextRand rng1).1
  let rng2 := (nextRand rng1).2
  let time_val := unif env.time.lo env.time.hi (nextRand rng2).1
  (⟨memory_val, cpu_val, time_val⟩, (nextRand rng2).2)

/-- Lines 213-218 (comment: No cache = slower). -/
def noCacheB (profile : Profile) (cache_available : Bool) (x : SampleVals × List ℚ) :
    SampleVals × List ℚ :=
  if !cache_available then
    let tr : ℚ × List ℚ :=
      match profile.deps_no_cache with
      | some nc =>
        (max x.1.time_val (unif nc.time_min.lo nc.time_min.hi (nextRand x.2).1),
         (nextRand x.2).2)
      | none => (x.1.time_val, x.2)
    ({ x.1 with time_val := tr.1 * unif 1.5 2.5 (nextRand tr.2).1 }, (nextRand tr.2).2)
  else x

/-- Lines 220-223 (comment: First build = even slower). -/
def firstBuildB (is_first_build : Bool) (x : SampleVals × List ℚ) :
    SampleVals × List ℚ :=
  if is_first_build then
    let t := x.1.time_val * unif 1.3 2.0 (nextRand x.2).1
    let rng := (nextRand x.2).2
    ({ x.1 with
        time_val := t
        memory_val := x.1.memory_val * unif 1.1 1.3 (nextRand rng).1 }, (nextRand rng).2)
  else x

/-- Lines 225-229 (comment: CLEAN BUILD = full rebuild). -/
def cleanBuildB (is_clean_build : Bool) (x : SampleVals × List ℚ) :
    SampleVals × List ℚ :=
  if is_clean_build then
    let t := x.1.time_val * unif 1.5 2.5 (nextRand x.2).1
    let rng := (nextRand x.2).2
    ({ memory_val := x.1.memory_val * unif 1.1 1.2 (nextRand rng).1
       cpu_val := min 100 (x.1.cpu_val * 1.1)
       time_val := t }, (nextRand rng).2)
  else x

/-- Lines 231-234 (comment: MONOREPO = more projects to potentially build). -/
def monorepoB (is_monorepo : Bool) (x : SampleVals × List ℚ) :
    SampleVals × List ℚ :=
  if is_monorepo then
    let t := x.1.time_val * unif 1.2 1.8 (nextRand x.2).1
    let rng := (nextRand x.2).2
    ({ x.1 with
        time_val := t
        memory_val := x.1.memory_val * unif 1.1 1.4 (nextRand rng).1 }, (nextRand rng).2)
  else x

/-- Lines 236-243 (comment: Release build = optimization overhead). -/
def releaseB (profile : Profile) (is_release : Bool) (x : SampleVals × List ℚ) :
    SampleVals × List ℚ :=
  if is_release then
    let y : SampleVals × List ℚ :=
      match profile.release with
      | some rel =>
        let m := max x.1.memory_val (unif rel.memory_gb.lo rel.memory_gb.hi (nextRand x.2).1)
        let rng := (nextRand x.2).2
        ({ x.1 with
            memory_val := m
            cpu_val := max x.1.cpu_val (unif rel.cpu_pct.lo rel.cpu_pct.hi (nextRand rng).1) },
         (nextRand rng).2)
      | none => x
    ({ memory_val := y.1.memory_val
       cpu_val := min 100 (y.1.cpu_val * 1.15)
       time_val := y.1.time_val * unif 1.3 1.6 (nextRand y.2).1 }, (nextRand y.2).2)
  else x

/-- Lines 245-249: the returned record, rounded. -/
def roundRes (x : SampleVals × List ℚ) : Resources :=
  { memory_gb := roundTo 2 x.1.memory_val
    cpu_avg_pct := roundTo 1 x.1.cpu_val
    build_time_min := roundTo 1 x.1.time_val }

/-- calculate_resources from src/resources/generate_enhanced_dataset.py
(lines 173-249): widen the envelope by the active additions, sample a point
estimate, and apply the no-cache, first-build, clean-build, monorepo and
release modifier blocks in source order. -/
def calculate_resources (pt : ProjName) (cfg : PipelineConfig)
    (cache_available is_first_build is_release is_clean_build is_monorepo : Bool)
    (rng : List ℚ) : Resources :=
  let profile := RESOURCE_PROFILES pt
  roundRes
    (releaseB profile is_release
      (monorepoB is_monorepo
        (cleanBuildB is_clean_build
          (firstBuildB is_first_build
            (noCacheB profile cache_available
              (baseSample profile cfg rng))))))

/-! ## generate_pipeline_config -/

/-- The per-project stage probability rows of the configs dict in
generate_pipeline_config (src/resources/generate_enhanced_dataset.py
lines 256-299). -/
structure StageProbs where
  has_unit_tests : ℚ
  has_integration_tests : ℚ
  has_e2e_tests : ℚ
  has_docker_build : ℚ
  uses_emulator : ℚ
deriving DecidableEq

/-- The configs table of generate_pipeline_config. -/
def stageConfigs : ProjName → StageProbs
  | .python => ⟨0.85, 0.45, 0.10, 0.35, 0.0⟩
  | .java => ⟨0.90, 0.55, 0.15, 0.40, 0.0⟩
  | .nodejs => ⟨0.80, 0.40, 0.25, 0.30, 0.0⟩
  | .reactNative => ⟨0.75, 0.35, 0.45, 0.15, 0.55⟩
  | .android => ⟨0.85, 0.45, 0.50, 0.10, 0.60⟩
  | .ios => ⟨0.80, 0.40, 0.40, 0.0, 0.50⟩

/-- The probability threshold each stage draw is compared against in
generate_pipeline_config (lines 304-313): unit, integration and e2e use
min(1, p * release_multiplier); docker and emulator use p directly. -/
def stage_threshold (pt : ProjName) (is_release : Bool) (s : AddName) : ℚ :=
  let proj_config := stageConfigs pt
  let release_multiplier : ℚ := if is_release then 1.3 else 1.0
  match s with
  | .unit_tests => min 1 (proj_config.has_unit_tests * release_multiplier)
  | .integration => min 1 (proj_config.has_integration_tests * release_multiplier)
  | .e2e => min 1 (proj_config.has_e2e_tests * release_multiplier)
  | .docker => proj_config.has_docker_build
  | .emulator => proj_config.uses_emulator

/-- The dict returned by generate_pipeline_config (0/1 flags and counts). -/
structure GenPipelineConfig where
  has_build_stage : ℤ
  has_unit_tests : ℤ
  has_integration_tests : ℤ
  has_e2e_tests : ℤ
  has_deploy_stage : ℤ
  has_docker_build : ℤ
  uses_emulator : ℤ
  parallel_stages : ℤ
  stages_count : ℤ
deriving DecidableEq

/-- generate_pipeline_config from src/resources/generate_enhanced_dataset.py
(lines 252-326).  Draws are consumed in the evaluation order of the Python
dict literal; the deploy entry short-circuits (no draw) when is_release. -/
def generate_pipeline_config (pt : ProjName) (is_release : Bool) (rng : List ℚ) :
    GenPipelineConfig × List ℚ :=
  let (u, rng) := nextRand rng
  let has_unit_tests : ℤ := if u < stage_threshold pt is_release .unit_tests then 1 else 0
  let (u, rng) := nextRand rng
  let has_integration_tests : ℤ := if u < stage_threshold pt is_release .integration then 1 else 0
  let (u, rng) := nextRand rng
  let has_e2e_tests : ℤ := if u < stage_threshold pt is_release .e2e then 1 else 0
  let (has_deploy_stage, rng) : ℤ × List ℚ :=
    if is_release then (1, rng)
    else
      let (u, rng) := nextRand rng
      (if u < 0.3 then 1 else 0, rng)
  let (u, rng) := nextRand rng
  let has_docker_build : ℤ := if u < stage_threshold pt is_release .docker then 1 else 0
  let (u, rng) := nextRand rng
  let uses_emulator : ℤ := if u < stage_threshold pt is_release .emulator then 1 else 0
  let (u, rng) := nextRand rng
  let parallel_stages : ℤ := if is_release then rchoice [1, 1, 2, 2, 3] u else rchoice [1, 1, 1, 2] u
  let has_build_stage : ℤ := 1
  ({ has_build_stage := has_build_stage
     has_unit_tests := has_unit_tests
     has_integration_tests := has_integration_tests
     has_e2e_tests := has_e2e_tests
     has_deploy_stage := has_deploy_stage
     has_docker_build := has_docker_build
     uses_emulator := uses_emulator
     parallel_stages := parallel_stages
     stages_count := has_build_stage + has_unit_tests + has_integration_tests +
       has_e2e_tests + has_deploy_stage }, rng)

/-! ## Concrete inputs used by the claims -/

/-- The empty build context {}. -/
def emptyContext : BuildContext := {}

/-- The documented default feature values of spec section 4.2, with the
branch_type default obtained by inference on the default branch develop. -/
def defaultFeatures (now_hour : ℤ) : List (String × ℚ) := [
  ("project_type", 0),
  ("repo_size_mb", 100),
  ("is_monorepo", 0),
  ("branch_type", 1),
  ("build_type", 0),
  ("environment", 0),
  ("files_changed", 5),
  ("lines_added", 100),
  ("lines_deleted", 20),
  ("source_files_pct", 0.8),
  ("deps_file_changed", 0),
  ("dependency_count", 50),
  ("test_files_changed", 0),
  ("stages_count", 3),
  ("has_build_stage", 1),
  ("has_unit_tests", 1),
  ("has_integration_tests", 0),
  ("has_e2e_tests", 0),
  ("has_deploy_stage", 0),
  ("has_docker_build", 0),
  ("uses_emulator", 0),
  ("parallel_stages", 0),
  ("has_artifact_publish", 0),
  ("is_first_build", 0),
  ("cache_available", 1),
  ("is_clean_build", 0),
  ("time_of_day_hour", ((now_hour : ℤ) : ℚ))]

/-- The concrete context of claim C7; the two Python true flags coerce to 1
under int(). -/
def androidReleaseContext : BuildContext :=
  { projectType := some "android"
    branch := some "release/v2.1.0"
    buildType := some "release"
    hasE2ETests := some 1
    usesEmulator := some 1 }

/-- The feature list claim C7 expects: the five encoded fields plus every
documented default. -/
def androidReleaseFeatures (now_hour : ℤ) : List (String × ℚ) := [
  ("project_type", 4),
  ("repo_size_mb", 100),
  ("is_monorepo", 0),
  ("branch_type", 4),
  ("build_type", 1),
  ("environment", 0),
  ("files_changed", 5),
  ("lines_added", 100),
  ("lines_deleted", 20),
  ("source_files_pct", 0.8),
  ("deps_file_changed", 0),
  ("dependency_count", 50),
  ("test_files_changed", 0),
  ("stages_count", 3),
  ("has_build_stage", 1),
  ("has_unit_tests", 1),
  ("has_integration_tests", 0),
  ("has_e2e_tests", 1),
  ("has_deploy_stage", 0),
  ("has_docker_build", 0),
  ("uses_emulator", 1),
  ("parallel_stages", 0),
  ("has_artifact_publish", 0),
  ("is_first_build", 0),
  ("cache_available", 1),
  ("is_clean_build", 0),
  ("time_of_day_hour", ((now_hour : ℤ) : ℚ))]

/-! ## Definitions written from the claim texts (spec side, for refinement) -/

/-- The pipeline-config boolean that governs an addition name. -/
def cfgFlag (cfg : PipelineConfig) : AddName → Bool
  | .unit_tests => cfg.has_unit_tests
  | .integration => cfg.has_integration_tests
  | .e2e => cfg.has_e2e_tests
  | .emulator => cfg.uses_emulator
  | .docker => cfg.has_docker_build

/-- Enable one pipeline stage, holding everything else fixed (claim C8). -/
def enableStage (a : AddName) (cfg : PipelineConfig) : PipelineConfig :=
  match a with
  | .unit_tests => { cfg with has_unit_tests := true }
  | .integration => { cfg with has_integration_tests := true }
  | .e2e => { cfg with has_e2e_tests := true }
  | .emulator => { cfg with uses_emulator := true }
  | .docker => { cfg with has_docker_build := true }

/-- Modelled from claim C3: an addition is active iff its pipeline-config
boolean is set and the project profile defines that named sub-profile. -/
def activeAdditions (profile : Profile) (cfg : PipelineConfig) : List AddName :=
  ([AddName.unit_tests, AddName.integration, AddName.e2e,
    AddName.emulator, AddName.docker]).filter
    (fun a => cfgFlag cfg a && (profAdd profile a).isSome)

/-- Modelled from claim C3: one widening step — elementwise max of both
endpoints for memory and cpu, max for the time lower bound, and the time
upper bound increased by half of the addition upper bound. -/
def specWiden (acc : Envelope) (ap : StageProfile) : Envelope :=
  { memory := ⟨max acc.memory.lo ap.memory_gb.lo, max acc.memory.hi ap.memory_gb.hi⟩
    cpu := ⟨max acc.cpu.lo ap.cpu_pct.lo, max acc.cpu.hi ap.cpu_pct.hi⟩
    time := ⟨max acc.time.lo ap.time_min.lo, acc.time.hi + ap.time_min.hi * 0.5⟩ }

/-- Modelled from claim C3: widen the base envelope by every active
addition. -/
def widenAllSpec (profile : Profile) (cfg : PipelineConfig) : Envelope :=
  ((activeAdditions profile cfg).filterMap (profAdd profile)).foldl specWiden
    ⟨profile.base.memory_gb, profile.base.cpu_pct, profile.base.time_min⟩

/-- Modelled from claim C4: if cache is unavailable, the time sample is
raised to at least a uniform sample of the profile no-cache time interval
(when that addition is defined) and then multiplied by a uniform factor in
[1.5, 2.5]. -/
def specNoCache (profile : Profile) (cache_available : Bool) (x : SampleVals × List ℚ) :
    SampleVals × List ℚ :=
  if cache_available then x
  else
    let raised : ℚ × List ℚ :=
      match profile.deps_no_cache with
      | some nc =>
        (max x.1.time_val (unif nc.time_min.lo nc.time_min.hi (nextRand x.2).1),
         (nextRand x.2).2)
      | none => (x.1.time_val, x.2)
    ({ x.1 with time_val := raised.1 * unif 1.5 2.5 (nextRand raised.2).1 },
     (nextRand raised.2).2)

/-- Modelled from claim C4: first-build multiplies time by [1.3, 2.0] and
memory by [1.1, 1.3]. -/
def specFirstBuild (is_first_build : Bool) (x : SampleVals × List ℚ) :
    SampleVals × List ℚ :=
  if is_first_build then
    let t := x.1.time_val * unif 1.3 2.0 (nextRand x.2).1
    let m := x.1.memory_val * unif 1.1 1.3 (nextRand (nextRand x.2).2).1
    ({ x.1 with time_val := t, memory_val := m }, (nextRand (nextRand x.2).2).2)
  else x

/-- Modelled from claim C4: clean-build multiplies time by [1.5, 2.5],
memory by [1.1, 1.2], and cpu by 1.1 capped at 100. -/
def specCleanBuild (is_clean_build : Bool) (x : SampleVals × List ℚ) :
    SampleVals × List ℚ :=
  if is_clean_build then
    let t := x.1.time_val * unif 1.5 2.5 (nextRand x.2).1
    let m := x.1.memory_val * unif 1.1 1.2 (nextRand (nextRand x.2).2).1
    (⟨m, min 100 (x.1.cpu_val * 1.1), t⟩, (nextRand (nextRand x.2).2).2)
  else x

/-- Modelled from claim C4: monorepo multiplies time by [1.2, 1.8] and
memory by [1.1, 1.4]. -/
def specMonorepo (is_monorepo : Bool) (x : SampleVals × List ℚ) :
    SampleVals × List ℚ :=
  if is_monorepo then
    let t := x.1.time_val * unif 1.2 1.8 (nextRand x.2).1
    let m := x.1.memory_val * unif 1.1 1.4 (nextRand (nextRand x.2).2).1
    ({ x.1 with time_val := t, memory_val := m }, (nextRand (nextRand x.2).2).2)
  else x

/-- Modelled from claim C4: release raises memory and cpu to at least uniform
samples of the profile release intervals (when defined), multiplies time by
[1.3, 1.6], and multiplies cpu by 1.15 capped at 100. -/
def specRelease (profile : Profile) (is_release : Bool) (x : SampleVals × List ℚ) :
    SampleVals × List ℚ :=
  if is_release then
    let y : SampleVals × List ℚ :=
      match profile.release with
      | some rel =>
        let m := max x.1.memory_val (unif rel.memory_gb.lo rel.memory_gb.hi (nextRand x.2).1)
        let c := max x.1.cpu_val
          (unif rel.cpu_pct.lo rel.cpu_pct.hi (nextRand (nextRand x.2).2).1)
        ({ x.1 with memory_val := m, cpu_val := c }, (nextRand (nextRand x.2).2).2)
      | none => x
    (⟨y.1.memory_val, min 100 (y.1.cpu_val * 1.15),
      y.1.time_val * unif 1.3 1.6 (nextRand y.2).1⟩, (nextRand y.2).2)
  else x

/-- Modelled from claim C6: how many of the five critical features differ
from their defaults 0, 0, 0, 3, 0. -/
def diffCount (f : String → Option ℚ) : ℕ :=
  (if f "project_type" ≠ some 0 then 1 else 0) +
  (if f "has_e2e_tests" ≠ some 0 then 1 else 0) +
  (if f "uses_emulator" ≠ some 0 then 1 else 0) +
  (if f "stages_count" ≠ some 3 then 1 else 0) +
  (if f "is_first_build" ≠ some 0 then 1 else 0)

/-- The base stage-occurrence probability of the per-project table. -/
def baseProb (pt : ProjName) : AddName → ℚ
  | .unit_tests => (stageConfigs pt).has_unit_tests
  | .integration => (stageConfigs pt).has_integration_tests
  | .e2e => (stageConfigs pt).has_e2e_tests
  | .docker => (stageConfigs pt).has_docker_build
  | .emulator => (stageConfigs pt).uses_emulator

/-- Modelled from claim C9 as stated: every stage threshold would be
min(1, 1.3 * base) when is_release and the base probability otherwise. -/
def claimStageThreshold (pt : ProjName) (is_release : Bool) (s : AddName) : ℚ :=
  min 1 (baseProb pt s * (if is_release then 1.3 else 1.0))

/-- The amended claim C9: the 1.3 scaling (capped at 1.0) applies to the
unit-test, integration and e2e probabilities only; docker and emulator use
the base probability unscaled. -/
def amendedStageThreshold (pt : ProjName) (is_release : Bool) (s : AddName) : ℚ :=
  match s with
  | .unit_tests | .integration | .e2e =>
    min 1 (baseProb pt s * (if is_release then 1.3 else 1.0))
  | .docker | .emulator => baseProb pt s

/-! ## Verification predicates over envelopes and profiles -/

/-- Componentwise comparison of envelopes (every endpoint at most the
corresponding endpoint). -/
def envLE (x y : Envelope) : Prop :=
  x.memory.lo ≤ y.memory.lo ∧ x.memory.hi ≤ y.memory.hi ∧
  x.cpu.lo ≤ y.cpu.lo ∧ x.cpu.hi ≤ y.cpu.hi ∧
  x.time.lo ≤ y.time.lo ∧ x.time.hi ≤ y.time.hi

/-- Every addition the profile defines has a nonnegative time upper bound. -/
def timeHiNonneg (profile : Profile) : Prop :=
  ∀ a : AddName,
    match profAdd profile a with
    | some ap => 0 ≤ ap.time_min.hi
    | none => True

/-- The base cpu interval and every defined addition cpu interval of the
profile is proper with upper bound at most 98. -/
def profCpuOK (profile : Profile) : Prop :=
  (profile.base.cpu_pct.lo ≤ profile.base.cpu_pct.hi ∧
   profile.base.cpu_pct.hi ≤ 98) ∧
  ∀ a : AddName,
    match profAdd profile a with
    | some ap => ap.cpu_pct.lo ≤ ap.cpu_pct.hi ∧ ap.cpu_pct.hi ≤ 98
    | none => True

/-! ## Helper lemmas -/

theorem roundTo_mono (k : ℕ) {x y : ℚ} (h : x ≤ y) : roundTo k x ≤ roundTo k y := by
  unfold roundTo
  have h10 : (0 : ℚ) < 10 ^ k := by positivity
  rw [div_le_div_iff_of_pos_right h10]
  have hm : x * 10 ^ k ≤ y * 10 ^ k := mul_le_mul_of_nonneg_right h h10.le
  have : round (x * 10 ^ k) ≤ round (y * 10 ^ k) := by
    rw [round_eq, round_eq]
    exact Int.floor_mono (by linarith)
  exact_mod_cast this

theorem roundTo_int (k : ℕ) (n : ℤ) : roundTo k ((n : ℤ) : ℚ) = n := by
  unfold roundTo
  rw [show ((n : ℚ)) * 10 ^ k = ((n * 10 ^ k : ℤ) : ℚ) by push_cast; ring, round_intCast]
  have h10 : ((10 : ℚ)) ^ k ≠ 0 := by positivity
  push_cast
  field_simp

theorem roundTo_two_half : roundTo 2 (0.5 : ℚ) = 0.5 := by
  unfold roundTo
  rw [show (0.5 : ℚ) * 10 ^ 2 = ((50 : ℤ) : ℚ) by norm_num, round_intCast]
  norm_num

theorem nextRand_fst {rng : List ℚ} (h : GoodStream rng) :
    0 ≤ (nextRand rng).1 ∧ (nextRand rng).1 ≤ 1 := by
  cases rng with
  | nil => simp [nextRand]
  | cons a l => exact h a (by simp)

theorem nextRand_snd {rng : List ℚ} (h : GoodStream rng) : GoodStream (nextRand rng).2 := by
  cases rng with
  | nil => simpa [nextRand] using h
  | cons a l => exact fun u hu => h u (by simp [nextRand] at hu ⊢; exact Or.inr hu)

theorem unif_le_hi {a b u : ℚ} (hab : a ≤ b) (_h0 : 0 ≤ u) (h1 : u ≤ 1) :
    unif a b u ≤ b := by
  unfold unif
  nlinarith

/-! ## Claim theorems -/

/-- C1: for every build context (including the empty one) engineer_features
returns exactly 27 named values in the documented fixed order (all values are
rationals, hence finite, and the function is total so it never fails), and on
the empty context every value is the documented literal default. -/
theorem c1_engineer_features_shape :
    (∀ (ctx : BuildContext) (h : ℤ),
      (engineer_features ctx h).map Prod.fst = FEATURE_COLUMNS ∧
      (engineer_features ctx h).length = 27) ∧
    (∀ h : ℤ, engineer_features emptyContext h = defaultFeatures h) :=
  ⟨fun _ _ => ⟨rfl, rfl⟩, fun _ => rfl⟩

/-- C7: the concrete android release context encodes project_type 4,
branch_type 4, build_type 1, has_e2e_tests 1, uses_emulator 1 and leaves all
other features at the documented defaults; the project-type lookup is
case-insensitive over the alias table, node and nodejs agree, reactnative and
react-native agree, and unmatched names map to 0. -/
theorem c7_android_release_context :
    (∀ h : ℤ, engineer_features androidReleaseContext h = androidReleaseFeatures h) ∧
    lookupProjectType "node" = lookupProjectType "nodejs" ∧
    lookupProjectType "reactnative" = lookupProjectType "react-native" ∧
    lookupProjectType "NodeJS" = 2 ∧
    lookupProjectType "golang" = 0 ∧
    (∀ s t : String, lowerStr s = lowerStr t →
      lookupProjectType s = lookupProjectType t) :=
  ⟨fun _ => rfl, rfl, rfl, rfl, rfl,
   fun s t hst => by unfold lookupProjectType; rw [hst]⟩

/-- C7 witness: the case-insensitivity clause applied at a concrete pair. -/
theorem c7_android_release_context_witness :
    lookupProjectType "PyThOn" = lookupProjectType "python" :=
  c7_android_release_context.2.2.2.2.2 "PyThOn" "python" rfl

/-- C2 counterexample: the source guards the string branch with a Python
truthiness test, so an explicitly supplied empty string is not looked up in
BRANCH_TYPES (which would give 0) but falls through to name inference; with
branch "main" the inference returns 2. -/
theorem c2_counterexample :
    encode_branch_type (some (BTV.str "")) "main" = 2 ∧
    ((BRANCH_TYPES.lookup (lowerStr "")).getD 0) = 0 ∧
    ¬ (∀ (v : Option BTV) (branch s : String), v = some (BTV.str s) →
        encode_branch_type v branch = ((BRANCH_TYPES.lookup (lowerStr s)).getD 0)) := by
  refine ⟨rfl, rfl, fun hcl => ?_⟩
  have h2 := hcl (some (BTV.str "")) "main" "" rfl
  rw [show encode_branch_type (some (BTV.str "")) "main" = 2 from rfl] at h2
  exact absurd h2 (by decide)

/-- C2 (amended): branch-type encoding resolves with this priority — an
explicit integer code is used verbatim; an explicit NON-EMPTY string name is
looked up case-insensitively with default 0 when unmatched; otherwise (no
value, or the empty string, which the source treats as falsy) the code is
inferred from the raw branch name by ordered rules: contains "feature" gives
0, equals "develop" or "development" gives 1, equals "main" or "master"
gives 2, contains "hotfix" gives 3, contains "release" gives 4, otherwise 0;
engineer_features stores exactly this code under branch_type. -/
theorem c2_branch_type_resolution :
    (∀ (branch : String) (n : ℤ),
      encode_branch_type (some (BTV.int n)) branch = n) ∧
    (∀ (branch s : String), s ≠ "" →
      encode_branch_type (some (BTV.str s)) branch =
        ((BRANCH_TYPES.lookup (lowerStr s)).getD 0)) ∧
    (∀ branch : String, encode_branch_type none branch = inferBranchType branch) ∧
    (∀ branch : String,
      encode_branch_type (some (BTV.str "")) branch = inferBranchType branch) ∧
    (∀ b : String, strContains (lowerStr b) "feature" = true → inferBranchType b = 0) ∧
    (∀ b : String, strContains (lowerStr b) "feature" = false →
      (lowerStr b = "develop" ∨ lowerStr b = "development") → inferBranchType b = 1) ∧
    (∀ b : String, strContains (lowerStr b) "feature" = false →
      ¬(lowerStr b = "develop" ∨ lowerStr b = "development") →
      (lowerStr b = "main" ∨ lowerStr b = "master") → inferBranchType b = 2) ∧
    (∀ b : String, strContains (lowerStr b) "feature" = false →
      ¬(lowerStr b = "develop" ∨ lowerStr b = "development") →
      ¬(lowerStr b = "main" ∨ lowerStr b = "master") →
      strContains (lowerStr b) "hotfix" = true → inferBranchType b = 3) ∧
    (∀ b : String, strContains (lowerStr b) "feature" = false →
      ¬(lowerStr b = "develop" ∨ lowerStr b = "development") →
      ¬(lowerStr b = "main" ∨ lowerStr b = "master") →
      strContains (lowerStr b) "hotfix" = false →
      strContains (lowerStr b) "release" = true → inferBranchType b = 4) ∧
    (∀ b : String, strContains (lowerStr b) "feature" = false →
      ¬(lowerStr b = "develop" ∨ lowerStr b = "development") →
      ¬(lowerStr b = "main" ∨ lowerStr b = "master") →
      strContains (lowerStr b) "hotfix" = false →
      strContains (lowerStr b) "release" = false → inferBranchType b = 0) ∧
    (∀ (ctx : BuildContext) (h : ℤ),
      (engineer_features ctx h).lookup "branch_type" =
        some ((encode_branch_type (ctx.branchType <|> ctx.branch_type)
          ((ctx.branch).getD "develop") : ℤ) : ℚ)) := by
  refine ⟨fun _ _ => rfl, ?_, fun _ => rfl, fun _ => rfl, ?_, ?_, ?_, ?_, ?_, ?_,
    fun _ _ => rfl⟩
  · intro branch s hs
    simp [encode_branch_type, hs]
  · intro b h1
    simp [inferBranchType, h1]
  · intro b h1 h2
    simp [inferBranchType, h1, h2]
  · intro b h1 h2 h3
    simp [inferBranchType, h1, h2, h3]
  · intro b h1 h2 h3 h4
    simp [inferBranchType, h1, h2, h3, h4]
  · intro b h1 h2 h3 h4 h5
    simp [inferBranchType, h1, h2, h3, h4, h5]
  · intro b h1 h2 h3 h4 h5
    simp [inferBranchType, h1, h2, h3, h4, h5]

/-- C2 witness: the amended resolution applied at concrete inputs — an
explicit nonempty string name, and inference on a hotfix branch. -/
theorem c2_branch_type_resolution_witness :
    encode_branch_type (some (BTV.str "Master")) "x" = 2 ∧
    inferBranchType "hotfix/urgent" = 3 :=
  ⟨by rw [c2_branch_type_resolution.2.1 "x" "Master" (by decide)]; rfl,
   c2_branch_type_resolution.2.2.2.2.2.2.2.1 "hotfix/urgent" rfl (by decide) (by decide) rfl⟩

/-- C6: the confidence label is a function of the feature map alone — it is
the threshold function of the number of critical features that differ from
their defaults 0, 0, 0, 3, 0 (high at 4 or more, medium at 2 or more, low
otherwise); it is low exactly when at most one differs; and the features
engineered from the empty context yield low. -/
theorem c6_confidence_thresholds :
    (∀ f : String → Option ℚ,
      get_confidence f =
        (if 4 ≤ diffCount f then "high"
         else if 2 ≤ diffCount f then "medium" else "low") ∧
      (get_confidence f = "low" ↔ diffCount f ≤ 1)) ∧
    (∀ h : ℤ, get_confidence (featMap (engineer_features emptyContext h)) = "low") := by
  constructor
  · intro f
    by_cases h1 : f "project_type" = some 0 <;>
      by_cases h2 : f "has_e2e_tests" = some 0 <;>
        by_cases h3 : f "uses_emulator" = some 0 <;>
          by_cases h4 : f "stages_count" = some 3 <;>
            by_cases h5 : f "is_first_build" = some 0 <;>
              simp [get_confidence, diffCount, critical_features, h1, h2, h3, h4, h5]
  · intro h
    rfl

/-- C5: for every feature map and every raw model output the prediction
satisfies cpu in [10, 100], memoryGb at least 0.5 and timeMinutes at least 1;
the model is consulted only at the 27-wide vector assembled in the fixed
feature order with 0 for missing names (buildVector), so two models that
agree on that vector produce identical predictions. -/
theorem c5_predict_clamps :
    ∀ (features : String → Option ℚ) (model : List ℚ → ℚ × ℚ × ℚ),
      10 ≤ (predict_resources features model).cpu ∧
      (predict_resources features model).cpu ≤ 100 ∧
      0.5 ≤ (predict_resources features model).memoryGb ∧
      1 ≤ (predict_resources features model).timeMinutes ∧
      (buildVector features).length = 27 ∧
      (∀ model2 : List ℚ → ℚ × ℚ × ℚ,
        model2 (buildVector features) = model (buildVector features) →
        predict_resources features model2 = predict_resources features model) := by
  intro features model
  refine ⟨?_, ?_, ?_, ?_, rfl, ?_⟩
  · have h10 : (10 : ℚ) ≤ max 10 (min 100 (model (buildVector features)).1) :=
      le_max_left _ _
    have := roundTo_mono 1 h10
    rw [show ((10 : ℚ)) = (((10 : ℤ) : ℤ) : ℚ) by norm_num, roundTo_int] at this
    simpa [predict_resources] using this
  · have hle : max 10 (min 100 (model (buildVector features)).1) ≤ 100 :=
      max_le (by norm_num) (min_le_left _ _)
    have := roundTo_mono 1 hle
    rw [show ((100 : ℚ)) = (((100 : ℤ) : ℤ) : ℚ) by norm_num, roundTo_int] at this
    simpa [predict_resources] using this
  · have hge : (0.5 : ℚ) ≤ max 0.5 (model (buildVector features)).2.1 :=
      le_max_left _ _
    have := roundTo_mono 2 hge
    rw [roundTo_two_half] at this
    simpa [predict_resources] using this
  · have hge : (1 : ℚ) ≤ max 1 (model (buildVector features)).2.2 :=
      le_max_left _ _
    have := roundTo_mono 1 hge
    rw [show ((1 : ℚ)) = (((1 : ℤ) : ℤ) : ℚ) by norm_num, roundTo_int] at this
    simpa [predict_resources] using this
  · intro model2 hagree
    simp [predict_resources, hagree]

/-- C5 witness: the clamp bounds and model-locality at a concrete feature map
and model. -/
theorem c5_predict_clamps_witness :
    10 ≤ (predict_resources (fun _ => none) (fun _ => (0, 0, 0))).cpu ∧
    predict_resources (fun _ => none) (fun _ => (0, 0, 0)) =
      predict_resources (fun _ => none) (fun _ => (0, 0, 0)) :=
  ⟨(c5_predict_clamps (fun _ => none) (fun _ => (0, 0, 0))).1,
   (c5_predict_clamps (fun _ => none) (fun _ => (0, 0, 0))).2.2.2.2.2
     (fun _ => (0, 0, 0)) rfl⟩

theorem widenAllSpec_eq (profile : Profile) (cfg : PipelineConfig) :
    widenAllSpec profile cfg = widenAll profile cfg := by
  obtain ⟨base, ut, it, e2, em, dk, dn, rl⟩ := profile
  obtain ⟨a, b, c, d, e⟩ := cfg
  cases a <;> cases b <;> cases c <;> cases d <;> cases e <;>
    cases ut <;> cases it <;> cases e2 <;> cases em <;> cases dk <;> rfl

/-- C3: for every project type in the table and every pipeline configuration,
the envelope computed by the widening loop of calculate_resources equals the
claim-side envelope that folds exactly the active additions (boolean set and
sub-profile defined) with the claim widening formulas. -/
theorem c3_active_additions_widening :
    ∀ (pt : ProjName) (cfg : PipelineConfig),
      widenAllSpec (RESOURCE_PROFILES pt) cfg = widenAll (RESOURCE_PROFILES pt) cfg :=
  fun pt cfg => widenAllSpec_eq (RESOURCE_PROFILES pt) cfg

theorem envLE_refl (e : Envelope) : envLE e e :=
  ⟨le_rfl, le_rfl, le_rfl, le_rfl, le_rfl, le_rfl⟩

theorem envLE_trans {x y z : Envelope} (h₁ : envLE x y) (h₂ : envLE y z) : envLE x z :=
  ⟨h₁.1.trans h₂.1, h₁.2.1.trans h₂.2.1, h₁.2.2.1.trans h₂.2.2.1,
   h₁.2.2.2.1.trans h₂.2.2.2.1, h₁.2.2.2.2.1.trans h₂.2.2.2.2.1,
   h₁.2.2.2.2.2.trans h₂.2.2.2.2.2⟩

theorem wstep_mono {p : Profile} {x y : Envelope} (h : envLE x y) (a : AddName) :
    envLE (wstep p x a) (wstep p y a) := by
  unfold wstep
  obtain ⟨h1, h2, h3, h4, h5, h6⟩ := h
  cases profAdd p a with
  | none => exact ⟨h1, h2, h3, h4, h5, h6⟩
  | some ap =>
    exact ⟨max_le_max h1 le_rfl, max_le_max h2 le_rfl, max_le_max h3 le_rfl,
      max_le_max h4 le_rfl, max_le_max h5 le_rfl, add_le_add_right h6 _⟩

theorem wstep_extensive {p : Profile} (hp : timeHiNonneg p) (x : Envelope) (a : AddName) :
    envLE x (wstep p x a) := by
  have hta := hp a
  unfold wstep
  cases hpa : profAdd p a with
  | none => exact envLE_refl x
  | some ap =>
    rw [hpa] at hta
    exact ⟨le_max_left _ _, le_max_left _ _, le_max_left _ _, le_max_left _ _,
      le_max_left _ _, le_add_of_nonneg_right (mul_nonneg hta (by norm_num))⟩

theorem foldl_wstep_mono {p : Profile} {x y : Envelope} (h : envLE x y) (l : List AddName) :
    envLE (l.foldl (wstep p) x) (l.foldl (wstep p) y) := by
  induction l generalizing x y with
  | nil => exact h
  | cons a t ih => exact ih (wstep_mono h a)

theorem foldl_wstep_sublist {p : Profile} (hp : timeHiNonneg p) {S T : List AddName}
    (h : S.Sublist T) (x : Envelope) :
    envLE (S.foldl (wstep p) x) (T.foldl (wstep p) x) := by
  induction h generalizing x with
  | slnil => exact envLE_refl x
  | cons a h ih =>
    exact envLE_trans (ih x) (foldl_wstep_mono (wstep_extensive hp x a) _)
  | cons₂ a h ih => exact ih (wstep p x a)

theorem ite_singleton_sublist {x y : Bool} (l : List AddName)
    (h : x = true → y = true) :
    (if x then l else []).Sublist (if y then l else []) := by
  cases x with
  | false => simp
  | true => rw [h rfl]

theorem and_keeps_true {x y : Bool} (h : (x && y) = true) : (true && y) = true := by
  cases x <;> cases y <;> simp_all

theorem additions_sublist (p : Profile) (cfg : PipelineConfig) (s : AddName) :
    (pipeline_additions p cfg).Sublist (pipeline_additions p (enableStage s cfg)) := by
  obtain ⟨a, b, c, d, e⟩ := cfg
  cases s <;>
    dsimp only [pipeline_additions, enableStage] <;>
    refine List.Sublist.append (List.Sublist.append (List.Sublist.append
      (List.Sublist.append ?_ ?_) ?_) ?_) ?_ <;>
    first
      | exact List.Sublist.refl _
      | exact ite_singleton_sublist _ (fun _ => rfl)
      | exact ite_singleton_sublist _ and_keeps_true

theorem table_timeHiNonneg (pt : ProjName) : timeHiNonneg (RESOURCE_PROFILES pt) := by
  intro a
  cases pt <;> cases a <;> simp [profAdd, RESOURCE_PROFILES]

theorem widenAll_mono (pt : ProjName) (cfg : PipelineConfig) (s : AddName) :
    envLE (widenAll (RESOURCE_PROFILES pt) cfg)
      (widenAll (RESOURCE_PROFILES pt) (enableStage s cfg)) :=
  foldl_wstep_sublist (table_timeHiNonneg pt)
    (additions_sublist (RESOURCE_PROFILES pt) cfg s) _

/-- C8: enabling one additional pipeline stage, holding everything else
fixed, never shrinks the widened memory or cpu intervals and never decreases
the widened time upper bound, for every project type and configuration. -/
theorem c8_stage_monotonicity :
    ∀ (pt : ProjName) (cfg : PipelineConfig) (s : AddName),
      (widenAll (RESOURCE_PROFILES pt) cfg).memory.lo ≤
        (widenAll (RESOURCE_PROFILES pt) (enableStage s cfg)).memory.lo ∧
      (widenAll (RESOURCE_PROFILES pt) cfg).memory.hi ≤
        (widenAll (RESOURCE_PROFILES pt) (enableStage s cfg)).memory.hi ∧
      (widenAll (RESOURCE_PROFILES pt) cfg).cpu.lo ≤
        (widenAll (RESOURCE_PROFILES pt) (enableStage s cfg)).cpu.lo ∧
      (widenAll (RESOURCE_PROFILES pt) cfg).cpu.hi ≤
        (widenAll (RESOURCE_PROFILES pt) (enableStage s cfg)).cpu.hi ∧
      (widenAll (RESOURCE_PROFILES pt) cfg).time.hi ≤
        (widenAll (RESOURCE_PROFILES pt) (enableStage s cfg)).time.hi := by
  intro pt cfg s
  obtain ⟨h1, h2, h3, h4, h5, h6⟩ := widenAll_mono pt cfg s
  exact ⟨h1, h2, h3, h4, h6⟩

theorem table_profCpuOK (pt : ProjName) : profCpuOK (RESOURCE_PROFILES pt) := by
  constructor
  · cases pt <;> constructor <;> norm_num [RESOURCE_PROFILES]
  · intro a
    cases pt <;> cases a <;> simp [profAdd, RESOURCE_PROFILES] <;> norm_num

theorem wstep_cpuOK {p : Profile} (hp : profCpuOK p) {e : Envelope}
    (he : e.cpu.lo ≤ e.cpu.hi ∧ e.cpu.hi ≤ 98) (a : AddName) :
    (wstep p e a).cpu.lo ≤ (wstep p e a).cpu.hi ∧ (wstep p e a).cpu.hi ≤ 98 := by
  have hta := hp.2 a
  unfold wstep
  cases hpa : profAdd p a with
  | none => exact he
  | some ap =>
    rw [hpa] at hta
    exact ⟨max_le_max he.1 hta.1, max_le he.2 hta.2⟩

theorem foldl_cpuOK {p : Profile} (hp : profCpuOK p) {e : Envelope}
    (he : e.cpu.lo ≤ e.cpu.hi ∧ e.cpu.hi ≤ 98) (l : List AddName) :
    (l.foldl (wstep p) e).cpu.lo ≤ (l.foldl (wstep p) e).cpu.hi ∧
    (l.foldl (wstep p) e).cpu.hi ≤ 98 := by
  induction l generalizing e with
  | nil => exact he
  | cons a t ih => exact ih (wstep_cpuOK hp he a)

/-- Every widened cpu interval over the static table is proper and its upper
bound stays at or below 98. -/
theorem widen_cpu_bounds (pt : ProjName) (cfg : PipelineConfig) :
    (widenAll (RESOURCE_PROFILES pt) cfg).cpu.lo ≤
      (widenAll (RESOURCE_PROFILES pt) cfg).cpu.hi ∧
    (widenAll (RESOURCE_PROFILES pt) cfg).cpu.hi ≤ 98 :=
  foldl_cpuOK (table_profCpuOK pt) (table_profCpuOK pt).1 _

/-- C9 counterexample: for java release builds the docker stage is sampled
against the unscaled probability 0.40, not against min(1, 1.3 * 0.40) = 0.52
as the claim states; at draw 0.45 the code leaves the stage off although the
claimed threshold would switch it on. -/
theorem c9_counterexample :
    stage_threshold ProjName.java true AddName.docker = 2/5 ∧
    claimStageThreshold ProjName.java true AddName.docker = 13/25 ∧
    stage_threshold ProjName.java true AddName.docker ≠
      claimStageThreshold ProjName.java true AddName.docker ∧
    (generate_pipeline_config ProjName.java true
      [0, 0, 0, 0.45, 0, 0]).1.has_docker_build = 0 ∧
    ((0.45 : ℚ) < claimStageThreshold ProjName.java true AddName.docker) := by
  have hthr : stage_threshold ProjName.java true AddName.docker = 2/5 := by
    norm_num [stage_threshold, stageConfigs]
  have hclaim : claimStageThreshold ProjName.java true AddName.docker = 13/25 := by
    rw [claimStageThreshold, show baseProb ProjName.java AddName.docker = 0.40 from rfl]
    rw [if_pos rfl, min_eq_right (by norm_num)]
    norm_num
  refine ⟨hthr, hclaim, ?_, ?_, ?_⟩
  · rw [hthr, hclaim]; norm_num
  · simp only [generate_pipeline_config, nextRand, hthr]
    norm_num
  · rw [hclaim]; norm_num

/-- C9 (amended): the 1.3 release scaling with cap 1.0 applies to the
unit-test, integration and e2e probabilities; the docker and emulator stages
are sampled against the base probability unscaled. -/
theorem c9_stage_threshold_amended :
    ∀ (pt : ProjName) (rel : Bool) (s : AddName),
      stage_threshold pt rel s = amendedStageThreshold pt rel s := by
  intro pt rel s
  cases s <;> rfl

/-- C4: after sampling the point estimate, calculate_resources applies the
modifiers exactly in the claimed sequence — no-cache, first-build,
clean-build, monorepo, release — each stage behaving as the claim words
describe (the spec-side stage functions). -/
theorem c4_modifier_sequence :
    ∀ (pt : ProjName) (cfg : PipelineConfig)
      (cache_available is_first_build is_release is_clean_build is_monorepo : Bool)
      (rng : List ℚ),
      calculate_resources pt cfg cache_available is_first_build is_release
        is_clean_build is_monorepo rng =
      roundRes (specRelease (RESOURCE_PROFILES pt) is_release
        (specMonorepo is_monorepo (specCleanBuild is_clean_build
          (specFirstBuild is_first_build (specNoCache (RESOURCE_PROFILES pt)
            cache_available (baseSample (RESOURCE_PROFILES pt) cfg rng)))))) := by
  intro pt cfg ca fb rel cb mo rng
  cases ca <;> rfl

theorem noCacheB_cpu (p : Profile) (ca : Bool) (x : SampleVals × List ℚ) :
    ((noCacheB p ca x).1).cpu_val = x.1.cpu_val := by
  cases ca <;> rfl

theorem firstBuildB_cpu (fb : Bool) (x : SampleVals × List ℚ) :
    ((firstBuildB fb x).1).cpu_val = x.1.cpu_val := by
  cases fb <;> rfl

theorem monorepoB_cpu (mo : Bool) (x : SampleVals × List ℚ) :
    ((monorepoB mo x).1).cpu_val = x.1.cpu_val := by
  cases mo <;> rfl

theorem cleanBuildB_cpu_le (cb : Bool) (x : SampleVals × List ℚ)
    (h : x.1.cpu_val ≤ 100) : ((cleanBuildB cb x).1).cpu_val ≤ 100 := by
  cases cb with
  | false => exact h
  | true => exact min_le_left _ _

theorem releaseB_cpu_le (p : Profile) (rel : Bool) (x : SampleVals × List ℚ)
    (h : x.1.cpu_val ≤ 100) : ((releaseB p rel x).1).cpu_val ≤ 100 := by
  cases rel with
  | false => exact h
  | true => exact min_le_left _ _

theorem roundTo_one_hundred : roundTo 1 (100 : ℚ) = 100 := by
  rw [show ((100 : ℚ)) = (((100 : ℤ)) : ℚ) by norm_num, roundTo_int]

/-- C10: the cpu_avg_pct produced by calculate_resources never exceeds 100,
for every project type, pipeline configuration, flag combination and genuine
random stream; moreover every widened cpu interval over the table already has
upper bound at most 98 (the clean-build and release multiplications are the
only cpu increases past the table and both are capped at 100). -/
theorem c10_cpu_le_100 :
    ∀ (pt : ProjName) (cfg : PipelineConfig)
      (cache_available is_first_build is_release is_clean_build is_monorepo : Bool)
      (rng : List ℚ), GoodStream rng →
      (calculate_resources pt cfg cache_available is_first_build is_release
        is_clean_build is_monorepo rng).cpu_avg_pct ≤ 100 ∧
      (widenAll (RESOURCE_PROFILES pt) cfg).cpu.hi ≤ 98 := by
  intro pt cfg ca fb rel cb mo rng hgood
  refine ⟨?_, (widen_cpu_bounds pt cfg).2⟩
  have hb : (baseSample (RESOURCE_PROFILES pt) cfg rng).1.cpu_val ≤ 98 := by
    have h1 := nextRand_snd hgood
    have h2 := nextRand_fst h1
    have hw := widen_cpu_bounds pt cfg
    exact le_trans (unif_le_hi hw.1 h2.1 h2.2) hw.2
  set x0 := baseSample (RESOURCE_PROFILES pt) cfg rng with hx0
  set x1 := noCacheB (RESOURCE_PROFILES pt) ca x0 with hx1
  set x2 := firstBuildB fb x1 with hx2
  set x3 := cleanBuildB cb x2 with hx3
  set x4 := monorepoB mo x3 with hx4
  set x5 := releaseB (RESOURCE_PROFILES pt) rel x4 with hx5
  have h2 : x2.1.cpu_val ≤ 100 := by
    rw [hx2, firstBuildB_cpu, hx1, noCacheB_cpu]
    exact hb.trans (by norm_num)
  have h4 : x4.1.cpu_val ≤ 100 := by
    rw [hx4, monorepoB_cpu]
    exact cleanBuildB_cpu_le cb x2 h2
  have h5 : x5.1.cpu_val ≤ 100 := releaseB_cpu_le _ rel x4 h4
  have h6 := roundTo_mono 1 h5
  rw [roundTo_one_hundred] at h6
  exact h6

/-- C10 witness: the bound at a concrete input with the empty stream. -/
theorem c10_cpu_le_100_witness :
    GoodStream [] ∧
    (calculate_resources ProjName.python ⟨false, false, false, false, false⟩
      false false false false false []).cpu_avg_pct ≤ 100 :=
  ⟨by intro u hu; simp at hu,
   (c10_cpu_le_100 ProjName.python ⟨false, false, false, false, false⟩
     false false false false false [] (by intro u hu; simp at hu)).1⟩

end NodeSel
